import Mathlib

/-!
Shallow embedding of the ping-thing-client measurement loop and its two
freshness watchers, translated from:
  src/ping-thing-client.ts   (the main pingThing loop)
  src/utils/blockhash.ts     (watchBlockhash)
  src/utils/slot.ts          (watchSlotSent)
JavaScript numbers that hold wall-clock times, slots and block heights are
modelled as Nat; values that may be null or undefined are modelled as
Option.  Every loop is embedded as a step function on explicit state,
driven by a list of externally supplied events (fetch results, slot
notifications, attempt outcomes), so all definitions are executable.
-/

namespace PingThing

/-- Global blockhash slot of the FreshnessStore, from ping-thing-client.ts
line 75: value is null until the first successful fetch, updated_at is the
epoch sentinel 0, lastValidBlockHeight starts at 0. -/
structure GBlockhash where
  value : Option String
  updated_at : Nat
  lastValidBlockHeight : Nat
  deriving Repr, DecidableEq

/-- Global slot-sent slot of the FreshnessStore, from ping-thing-client.ts
line 78. -/
structure GSlotSent where
  value : Option Nat
  updated_at : Nat
  deriving Repr, DecidableEq

/-- Initial gBlockhash value at process start (ping-thing-client.ts:75). -/
def initGBlockhash : GBlockhash := { value := none, updated_at := 0, lastValidBlockHeight := 0 }

/-- Initial gSlotSent value at process start (ping-thing-client.ts:78). -/
def initGSlotSent : GSlotSent := { value := none, updated_at := 0 }

/-- Values captured by the probe iteration when it leaves the await-fresh
spin (ping-thing-client.ts:114-116). -/
structure Snapshot where
  blockhash : Option String
  lastValidBlockHeight : Nat
  slotSent : Option Nat
  deriving Repr, DecidableEq

/-- One check of the await-fresh spin (ping-thing-client.ts:109-121): if
both ages pass the freshness windows the loop captures the values and
breaks (some snapshot); otherwise it sleeps 1 ms and re-checks (none).
Ages are Nat-truncated differences; for the two strict comparisons this
agrees with JavaScript number subtraction whenever updated_at is not in
the future, and both semantics accept a future timestamp. -/
def awaitFreshStep (now : Nat) (bh : GBlockhash) (sl : GSlotSent) : Option Snapshot :=
  if now - bh.updated_at < 10000 ∧ now - sl.updated_at < 50 then
    some { blockhash := bh.value
           lastValidBlockHeight := bh.lastValidBlockHeight
           slotSent := sl.value }
  else
    none

/-! Watcher write events.  Each event is one pass of the watcher body; the
assignments to the global store inside one pass are separated by no await,
so under the single-threaded cooperative scheduler each pass is one atomic
store update from any reader's point of view. -/

/-- Outcome of one blockhash fetch attempt in watchBlockhash
(blockhash.ts:31-45): either the RPC answered within the 5000 ms timeout
(with the blockhash, its lastValidBlockHeight, and the Date.now() of the
write), or the fetch failed or timed out. -/
inductive BhEvent where
  | fetchOk (blockhash : String) (lastValidBlockHeight : Nat) (now : Nat)
  | fetchFail
  deriving Repr, DecidableEq

/-- Store effect of one watchBlockhash pass (blockhash.ts:36-45): success
writes value, lastValidBlockHeight and updated_at together; failure clears
value and updated_at (lastValidBlockHeight is left untouched by the catch
branch). -/
def watchBlockhashWrite (st : GBlockhash) : BhEvent → GBlockhash
  | .fetchOk b l now => { value := some b, updated_at := now, lastValidBlockHeight := l }
  | .fetchFail => { value := none, updated_at := 0, lastValidBlockHeight := st.lastValidBlockHeight }

/-- One slot notification consumed by watchSlotSent (slot.ts:17-31): the
two accepted subtypes carry the slot and the Date.now() of the write; any
other subtype invalidates the store. -/
inductive SlotEvent where
  | firstShredReceived (slot : Nat) (now : Nat)
  | completed (slot : Nat) (now : Nat)
  | otherType
  deriving Repr, DecidableEq

/-- Store effect of one watchSlotSent notification (slot.ts:18-29). -/
def watchSlotWrite (_st : GSlotSent) : SlotEvent → GSlotSent
  | .firstShredReceived s now => { value := some s, updated_at := now }
  | .completed s now => { value := some s, updated_at := now }
  | .otherType => { value := none, updated_at := 0 }

/-- Store contents after a sequence of watchBlockhash passes. -/
def bhFold (st : GBlockhash) (evs : List BhEvent) : GBlockhash :=
  evs.foldl watchBlockhashWrite st

/-- Store contents after a sequence of watchSlotSent notifications. -/
def slotFold (st : GSlotSent) (evs : List SlotEvent) : GSlotSent :=
  evs.foldl watchSlotWrite st

/-- A write event carries a nonzero wall-clock time: Date.now() is the
number of milliseconds since 1970 and is never 0 at runtime. -/
def timeOkBh : BhEvent → Prop
  | .fetchOk _ _ now => now ≠ 0
  | .fetchFail => True

/-- Slot analogue of timeOkBh. -/
def timeOkSlot : SlotEvent → Prop
  | .firstShredReceived _ now => now ≠ 0
  | .completed _ now => now ≠ 0
  | .otherType => True

/-- Pairing invariant on the blockhash slot: a present value goes with a
nonzero timestamp and an absent value with the 0 sentinel. -/
def pairedBh (st : GBlockhash) : Prop :=
  st.value.isSome = true ↔ st.updated_at ≠ 0

/-- Pairing invariant on the slot-sent slot. -/
def pairedSlot (st : GSlotSent) : Prop :=
  st.value.isSome = true ↔ st.updated_at ≠ 0

theorem pairedBh_init : pairedBh initGBlockhash := by
  simp [pairedBh, initGBlockhash]

theorem pairedSlot_init : pairedSlot initGSlotSent := by
  simp [pairedSlot, initGSlotSent]

theorem pairedBh_step (st : GBlockhash) (e : BhEvent) (he : timeOkBh e) :
    pairedBh (watchBlockhashWrite st e) := by
  cases e with
  | fetchOk b l now => simpa [pairedBh, watchBlockhashWrite] using he
  | fetchFail => simp [pairedBh, watchBlockhashWrite]

theorem pairedSlot_step (st : GSlotSent) (e : SlotEvent) (he : timeOkSlot e) :
    pairedSlot (watchSlotWrite st e) := by
  cases e with
  | firstShredReceived s now => simpa [pairedSlot, watchSlotWrite] using he
  | completed s now => simpa [pairedSlot, watchSlotWrite] using he
  | otherType => simp [pairedSlot, watchSlotWrite]

theorem pairedBh_fold (st : GBlockhash) (evs : List BhEvent)
    (hst : pairedBh st) (h : ∀ e ∈ evs, timeOkBh e) : pairedBh (bhFold st evs) := by
  induction evs generalizing st with
  | nil => simpa [bhFold] using hst
  | cons e es ih =>
      simp only [bhFold, List.foldl_cons] at *
      exact ih _ (pairedBh_step st e (h e (by simp))) (fun x hx => h x (by simp [hx]))

theorem pairedSlot_fold (st : GSlotSent) (evs : List SlotEvent)
    (hst : pairedSlot st) (h : ∀ e ∈ evs, timeOkSlot e) : pairedSlot (slotFold st evs) := by
  induction evs generalizing st with
  | nil => simpa [slotFold] using hst
  | cons e es ih =>
      simp only [slotFold, List.foldl_cons] at *
      exact ih _ (pairedSlot_step st e (h e (by simp))) (fun x hx => h x (by simp [hx]))

/-! The probe iteration after the submit phase (ping-thing-client.ts
lines 257-334), with the JavaScript value semantics the code relies on
made explicit. -/

/-- Sentinel all-nines signature substituted on the expiry path
(ping-thing-client.ts:86-87): 88 nines. -/
def FAKE_SIGNATURE : String :=
  "9999999999999999999999999999999999999999999999999999999999999999999999999999999999999999"

/-- One reported payload as assembled at ping-thing-client.ts:288-297.
slot_sent and slot_landed are the BigInt values serialized into the
payload; time is txEnd - txStart. -/
structure Measurement where
  time : Nat
  signature : String
  transaction_type : String
  success : Bool
  application : String
  commitment_level : String
  slot_sent : Nat
  slot_landed : Nat
  deriving Repr, DecidableEq

/-- JavaScript comparison slotLanded < slotSent as performed at
ping-thing-client.ts:279, where slotLanded may be undefined (none,
the lookup was skipped) and slotSent may be null (none): undefined
compares as NaN, so any comparison with it is false, and null coerces
to 0, so slot < null is false for a non-negative slot. -/
def jsLt : Option Nat → Option Nat → Bool
  | some a, some b => a < b
  | none, _ => false
  | some _, none => false

/-- Value of the slotLanded local when control reaches the sanity check:
the lookup block at ping-thing-client.ts:260-276 runs only for a real
signature, so on the fake-signature path slotLanded stays undefined. -/
def slotLandedOf (sig : String) (lookupResult : Option Nat) : Option Nat :=
  if sig ≠ FAKE_SIGNATURE then lookupResult else none

/-- Payload construction (ping-thing-client.ts:288-297).  The object
literal evaluates its fields in order, so the slot_sent conversion runs
before the slot_landed one; BigInt applied to null or undefined throws a
TypeError, which this embedding returns as an error. -/
def mkPayload (elapsed : Nat) (sig : String) (sSent landed : Option Nat) (cm : String) :
    Except String Measurement :=
  match sSent with
  | none => .error "TypeError: cannot convert slot_sent to a BigInt"
  | some s =>
    match landed with
    | none => .error "TypeError: cannot convert slot_landed to a BigInt"
    | some l =>
      .ok { time := elapsed
            signature := sig
            transaction_type := "transfer"
            success := sig != FAKE_SIGNATURE
            application := "web3"
            commitment_level := cm
            slot_sent := s
            slot_landed := l }

/-- Result of the iteration tail: an inner continue that voids the
iteration, normal completion (posted = the payload handed to the
reporter, none when skipped), or an exception escaping to the outer
catch (posted = some when the POST had already been made before the
non-2xx status was detected). -/
inductive TailResult where
  | voidContinue (log : String)
  | ok (posted : Option Measurement)
  | thrown (posted : Option Measurement) (msg : String)
  deriving Repr, DecidableEq

/-- Payload that reached the reporter POST, if any. -/
def postedOf : TailResult → Option Measurement
  | .voidContinue _ => none
  | .ok p => p
  | .thrown p _ => p

/-- Iteration tail (ping-thing-client.ts:257-329): landing lookup for a
real signature (continue when the lookup returns null), the negative
slot-delta sanity check, payload construction, the reporter POST (made
unless skipVA, throwing on a non-2xx status), and the tryCount reset
point.  lookupResult is what getTransaction returned (none = null),
vaStatus the HTTP status of the reporter response. -/
def iterTail (sig : String) (sSent lookupResult : Option Nat) (elapsed : Nat)
    (cm : String) (skipVA : Bool) (vaStatus : Nat) : TailResult :=
  if sig ≠ FAKE_SIGNATURE ∧ lookupResult = none then
    .voidContinue "ERROR: tx is not found on RPC. Not sending to VA."
  else if jsLt (slotLandedOf sig lookupResult) sSent then
    .voidContinue "ERROR: slot landed is less than slot sent. Not sending to VA."
  else
    match mkPayload elapsed sig sSent (slotLandedOf sig lookupResult) cm with
    | .error msg => .thrown none msg
    | .ok m =>
      if skipVA then .ok none
      else if 200 ≤ vaStatus ∧ vaStatus ≤ 299 then .ok (some m)
      else .thrown (some m) "Failed to update validators"

/-! The submit-with-resend phase (ping-thing-client.ts:196-228) and the
classify catch around it (ping-thing-client.ts:229-255). -/

/-- Error classes distinguished by the classify catch. -/
inductive TxError where
  | blockhashNotFound
  | expiredBlockheight
  | other (name msg : String)
  deriving Repr, DecidableEq

/-- Result of one pass of the inner resend loop body: the confirmation
promise resolved before the 2000 ms timer (break), the timer threw its
Tx Send Timeout error, or the send or the confirmation promise threw
some other exception. -/
inductive AttemptResult where
  | confirmed
  | timeout
  | sendError (e : TxError)
  deriving Repr, DecidableEq

/-- Per-iteration locals visible to the resend loop: txSendAttempts
starts at 1 each iteration (ping-thing-client.ts:106) and the signature
fixed at signing time (ping-thing-client.ts:165). -/
structure InnerState where
  txSendAttempts : Nat
  signature : String
  deriving Repr, DecidableEq

/-- How the resend loop can end: confirmed (break), still resending when
the supplied event list runs out, or an exception escaping the loop to
the classify catch. -/
inductive InnerPhaseResult where
  | confirmedOk (st : InnerState)
  | stillResending (st : InnerState)
  | escaped (e : TxError) (st : InnerState)
  deriving Repr, DecidableEq

/-- Signature recorded in the resend-loop outcome. -/
def innerSignature : InnerPhaseResult → String
  | .confirmedOk st => st.signature
  | .stillResending st => st.signature
  | .escaped _ st => st.signature

/-- True exactly for an outcome in which an exception escaped the resend
loop. -/
def isEscaped : InnerPhaseResult → Bool
  | .escaped _ _ => true
  | _ => false

/-- The inner resend loop (ping-thing-client.ts:196-228) driven by the
per-pass outcomes: on confirmation it breaks; on ANY caught exception -
the timeout as well as every send or confirmation error - the catch at
lines 222-227 logs the resend message, increments txSendAttempts and
loops again.  No exception is rethrown out of the loop. -/
def runInner (st : InnerState) : List AttemptResult → InnerPhaseResult
  | [] => .stillResending st
  | r :: rs =>
    match r with
    | .confirmed => .confirmedOk st
    | .timeout => runInner { st with txSendAttempts := st.txSendAttempts + 1 } rs
    | .sendError _ => runInner { st with txSendAttempts := st.txSendAttempts + 1 } rs

/-- What the classify catch decides (ping-thing-client.ts:229-255). -/
inductive ClassifyResult where
  | voidContinue (log : String)
  | proceedWithFake
  deriving Repr, DecidableEq

/-- The classify catch: blockhash-not-found logs and continues; the
expired-blockheight name falls through with the fake signature
substituted; every other exception logs in full and continues. -/
def classifyCatch : TxError → ClassifyResult
  | .blockhashNotFound => .voidContinue "ERROR: Blockhash not found"
  | .expiredBlockheight => .proceedWithFake
  | .other n _ => .voidContinue n

/-- Fatal ceiling of the outer catch (ping-thing-client.ts:90). -/
def MAX_TRIES : Nat := 3

/-- Outcome of one whole probe iteration as seen by the outer catch. -/
inductive IterOutcome where
  | success
  | voided
  | failed (e : String)
  deriving Repr, DecidableEq

/-- Effect of one iteration on the consecutive-failure counter
(ping-thing-client.ts:328-334): a reported iteration resets it to 0, a
void continue leaves it untouched, an exception pre-increments it and
rethrows exactly when the incremented value equals MAX_TRIES. -/
def outerStep (tryCount : Nat) : IterOutcome → Except String Nat
  | .success => .ok 0
  | .voided => .ok tryCount
  | .failed e => if tryCount + 1 = MAX_TRIES then .error e else .ok (tryCount + 1)

/-- Folding outerStep over a sequence of iteration outcomes; an error is
the rethrow that terminates the process. -/
def runOuter (tryCount : Nat) : List IterOutcome → Except String Nat
  | [] => .ok tryCount
  | o :: os =>
    match outerStep tryCount o with
    | .error e => .error e
    | .ok t => runOuter t os

/-- Boolean test that the loop has not terminated. -/
def isOkE : Except String Nat → Bool
  | .ok _ => true
  | .error _ => false

/-- One whole iteration from the classify catch on, composed from the
pieces above: phase1 is the outcome of the try block around build, sign
and the resend loop (ok with the signature, or the exception that reached
the classify catch).  Returns the next tryCount and the payload that was
POSTed, or the rethrown error when the ceiling is hit. -/
def runIteration (t : Nat) (phase1 : Except TxError String) (sSent lookupResult : Option Nat)
    (elapsed : Nat) (cm : String) (skipVA : Bool) (vaStatus : Nat) :
    Except String (Nat × Option Measurement) :=
  let tailOf : String → Except String (Nat × Option Measurement) := fun sig =>
    match iterTail sig sSent lookupResult elapsed cm skipVA vaStatus with
    | .voidContinue _ => .ok (t, none)
    | .ok posted => .ok (0, posted)
    | .thrown posted msg =>
        if t + 1 = MAX_TRIES then .error msg else .ok (t + 1, posted)
  match phase1 with
  | .error e =>
    match classifyCatch e with
    | .voidContinue _ => .ok (t, none)
    | .proceedWithFake => tailOf FAKE_SIGNATURE
  | .ok sig => tailOf sig

/-! The watchBlockhash loop with its consecutive-failure counter
(blockhash.ts:7-69). -/

/-- Default MAX_BLOCKHASH_FETCH_ATTEMPTS when the environment variable is
unset (blockhash.ts:7-8). -/
def MAX_BLOCKHASH_FETCH_ATTEMPTS : Nat := 5

/-- One pass of the watchBlockhash loop body: the try block updates the
store and resets attempts on success; the catch invalidates the store and
increments attempts; the finally block exits the process when attempts
has reached the ceiling.  An error result is the process.exit(0) call. -/
def watchBlockhashStep (ceiling attempts : Nat) (st : GBlockhash) (e : BhEvent) :
    Except Unit (Nat × GBlockhash) :=
  let st2 := watchBlockhashWrite st e
  let a2 := match e with
    | .fetchOk _ _ _ => 0
    | .fetchFail => attempts + 1
  if ceiling ≤ a2 then .error () else .ok (a2, st2)

/-- Running the watchBlockhash loop over a sequence of fetch outcomes,
stopping at the first process exit. -/
def watchBlockhashRun (ceiling : Nat) : Nat → GBlockhash → List BhEvent →
    Except Unit (Nat × GBlockhash)
  | a, st, [] => .ok (a, st)
  | a, st, e :: es =>
    match watchBlockhashStep ceiling a st e with
    | .error _ => .error ()
    | .ok (a2, st2) => watchBlockhashRun ceiling a2 st2 es

theorem watchBlockhashRun_append (ceiling a : Nat) (st : GBlockhash)
    (l1 l2 : List BhEvent) :
    watchBlockhashRun ceiling a st (l1 ++ l2) =
      match watchBlockhashRun ceiling a st l1 with
      | .error _ => .error ()
      | .ok (a2, st2) => watchBlockhashRun ceiling a2 st2 l2 := by
  induction l1 generalizing a st with
  | nil => simp [watchBlockhashRun]
  | cons e es ih =>
      simp only [List.cons_append, watchBlockhashRun]
      cases watchBlockhashStep ceiling a st e with
      | error u => rfl
      | ok p => exact ih p.1 p.2

theorem watchBlockhashRun_failures (ceiling : Nat) :
    ∀ (k a : Nat) (st : GBlockhash), a + k < ceiling →
      ∃ st2, watchBlockhashRun ceiling a st (List.replicate k .fetchFail) = .ok (a + k, st2) := by
  intro k
  induction k with
  | zero => intro a st _; exact ⟨st, rfl⟩
  | succ n ih =>
      intro a st h
      have hstep : watchBlockhashStep ceiling a st .fetchFail =
          .ok (a + 1, watchBlockhashWrite st .fetchFail) := by
        have : ¬ ceiling ≤ a + 1 := by omega
        simp [watchBlockhashStep, this]
      obtain ⟨st2, hst2⟩ := ih (a + 1) (watchBlockhashWrite st .fetchFail) (by omega)
      refine ⟨st2, ?_⟩
      simp only [List.replicate_succ, watchBlockhashRun, hstep]
      rw [hst2]
      congr 2
      omega

/-! The build phase and the capture-to-build data flow
(ping-thing-client.ts:109-156), indexed by cooperative scheduler steps
for the watcher-interference claim. -/

/-- The two shared store slots as one record, for trace-indexed views. -/
structure Stores where
  gBlockhash : GBlockhash
  gSlotSent : GSlotSent
  deriving Repr, DecidableEq

/-- The transaction message assembled at ping-thing-client.ts:128-156:
lifetime from the blockhash pair, a 500 compute-unit limit, the
configured priority fee, and the 5000-lamport self transfer. -/
structure Tx where
  blockhash : Option String
  lastValidBlockHeight : Nat
  computeUnitLimit : Nat
  priorityFeeMicroLamports : Nat
  transferLamports : Nat
  deriving Repr, DecidableEq

/-- Building the transaction message from the blockhash store contents
read at build time (ping-thing-client.ts:134-135 reads the global store
again; no await separates the capture at lines 114-116 from this read,
so both happen at the same cooperative step). -/
def buildTx (bhValue : Option String) (lastValidBlockHeight fee : Nat) : Tx :=
  { blockhash := bhValue
    lastValidBlockHeight := lastValidBlockHeight
    computeUnitLimit := 500
    priorityFeeMicroLamports := fee
    transferLamports := 5000 }

/-- One probe iteration viewed against a cooperative-step-indexed trace
of the shared stores.  The iteration reads the stores only at the capture
step tCap: the build at lines 128-156 is in the same synchronous segment
as the capture (the first suspension after the capture is the
signTransaction await at line 159), and no code after line 156 mentions
either global again - slotSent, signature, txStart and slotLanded are all
iteration locals.  signingOf stands for the opaque SDK sign-and-extract
step mapping the built message to its signature. -/
def iterationFromTrace (trace : Nat → Stores) (tCap : Nat) (fee : Nat)
    (signingOf : Tx → String) (lookupResult : Option Nat) (elapsed : Nat)
    (cm : String) (skipVA : Bool) (vaStatus : Nat) : Tx × TailResult :=
  let s := trace tCap
  let tx := buildTx s.gBlockhash.value s.gBlockhash.lastValidBlockHeight fee
  let sig := signingOf tx
  (tx, iterTail sig s.gSlotSent.value lookupResult elapsed cm skipVA vaStatus)

/-! Claim theorems. -/

/-- C1: for every clock state, the await-fresh check does not let the
iteration proceed while the anchor age is at least 10000 ms or the
position age is at least 50 ms, and it proceeds - capturing the store
values - exactly when the anchor is strictly less than 10000 ms old and
the position strictly less than 50 ms old. -/
theorem c1_freshness_gating (now : Nat) (bh : GBlockhash) (sl : GSlotSent) :
    ((10000 ≤ now - bh.updated_at ∨ 50 ≤ now - sl.updated_at) →
      awaitFreshStep now bh sl = none)
    ∧ (now - bh.updated_at < 10000 → now - sl.updated_at < 50 →
      awaitFreshStep now bh sl =
        some { blockhash := bh.value
               lastValidBlockHeight := bh.lastValidBlockHeight
               slotSent := sl.value }) := by
  constructor
  · intro h
    have hno : ¬ (now - bh.updated_at < 10000 ∧ now - sl.updated_at < 50) := by omega
    simp [awaitFreshStep, hno]
  · intro h1 h2
    simp [awaitFreshStep, h1, h2]

theorem c1_freshness_gating_witness :
    awaitFreshStep 20000
        { value := some "hash", updated_at := 19995, lastValidBlockHeight := 7 }
        { value := some 42, updated_at := 19980 } =
      some { blockhash := some "hash", lastValidBlockHeight := 7, slotSent := some 42 } :=
  (c1_freshness_gating 20000
      { value := some "hash", updated_at := 19995, lastValidBlockHeight := 7 }
      { value := some 42, updated_at := 19980 }).2 (by decide) (by decide)

/-- C5: starting from the initial stores, after any sequence of watcher
store updates whose successful writes carry a nonzero wall-clock time,
each slot satisfies the pairing invariant: a reader never observes a
present value with updatedAt equal to 0, nor an absent value with a
nonzero updatedAt.  Each watcher pass updates value and timestamp in one
synchronous segment (no await separates the assignments), so every
observable state is one of these fold prefixes. -/
theorem c5_pairing_atomicity (evB : List BhEvent) (evS : List SlotEvent)
    (hB : ∀ e ∈ evB, timeOkBh e) (hS : ∀ e ∈ evS, timeOkSlot e) :
    pairedBh (bhFold initGBlockhash evB) ∧ pairedSlot (slotFold initGSlotSent evS) :=
  ⟨pairedBh_fold _ _ pairedBh_init hB, pairedSlot_fold _ _ pairedSlot_init hS⟩

theorem c5_pairing_atomicity_witness :
    pairedBh (bhFold initGBlockhash [.fetchOk "b" 7 1]) ∧
      pairedSlot (slotFold initGSlotSent [.firstShredReceived 3 9]) :=
  c5_pairing_atomicity [.fetchOk "b" 7 1] [.firstShredReceived 3 9]
    (by intro e he; rw [List.mem_singleton] at he; subst he; simp [timeOkBh])
    (by intro e he; rw [List.mem_singleton] at he; subst he; simp [timeOkSlot])

/-- C6: with a ceiling of at least 1, a run of exactly ceiling-many
consecutive blockhash fetch failures starting from a reset counter makes
watchBlockhash exit the process, while ceiling-minus-one failures
followed by a success leave it running with the counter back at 0; every
successful fetch resets the consecutive-failure counter to 0. -/
theorem c6_fatal_ceiling (c : Nat) (hc : 1 ≤ c) (st : GBlockhash)
    (b : String) (l now : Nat) :
    watchBlockhashRun c 0 st (List.replicate c .fetchFail) = .error ()
    ∧ (∃ st2, watchBlockhashRun c 0 st
        (List.replicate (c - 1) .fetchFail ++ [.fetchOk b l now]) = .ok (0, st2))
    ∧ (∀ a st3, ∃ st4, watchBlockhashStep c a st3 (.fetchOk b l now) = .ok (0, st4)) := by
  obtain ⟨m, rfl⟩ : ∃ m, c = m + 1 := ⟨c - 1, by omega⟩
  obtain ⟨stm, hstm⟩ := watchBlockhashRun_failures (m + 1) m 0 st (by omega)
  simp only [Nat.zero_add] at hstm
  have hnotle : ¬ m + 1 ≤ 0 := by omega
  refine ⟨?_, ?_, ?_⟩
  · have hrep : List.replicate (m + 1) BhEvent.fetchFail =
        List.replicate m BhEvent.fetchFail ++ [BhEvent.fetchFail] :=
      List.replicate_succ' m BhEvent.fetchFail
    rw [hrep, watchBlockhashRun_append, hstm]
    simp [watchBlockhashRun, watchBlockhashStep]
  · refine ⟨watchBlockhashWrite stm (.fetchOk b l now), ?_⟩
    rw [Nat.add_sub_cancel, watchBlockhashRun_append, hstm]
    simp [watchBlockhashRun, watchBlockhashStep, hnotle]
  · intro a st3
    exact ⟨watchBlockhashWrite st3 (.fetchOk b l now), by
      simp [watchBlockhashStep, hnotle]⟩

theorem c6_fatal_ceiling_witness :
    watchBlockhashRun 5 0 initGBlockhash (List.replicate 5 .fetchFail) = .error () :=
  (c6_fatal_ceiling 5 (by decide) initGBlockhash "b" 1 1).1

theorem mkPayload_ok (elapsed : Nat) (sig : String) (sSent landed : Option Nat)
    (cm : String) (m : Measurement)
    (h : mkPayload elapsed sig sSent landed cm = .ok m) :
    sSent = some m.slot_sent ∧ landed = some m.slot_landed ∧ m.signature = sig := by
  cases sSent with
  | none => simp [mkPayload] at h
  | some s =>
    cases landed with
    | none => simp [mkPayload] at h
    | some l =>
        simp only [mkPayload, Except.ok.injEq] at h
        subst h
        simp

theorem iterTail_posted (sig : String) (sSent lookupResult : Option Nat) (elapsed : Nat)
    (cm : String) (skipVA : Bool) (vaStatus : Nat) (m : Measurement)
    (hm : postedOf (iterTail sig sSent lookupResult elapsed cm skipVA vaStatus) = some m) :
    mkPayload elapsed sig sSent (slotLandedOf sig lookupResult) cm = .ok m ∧
      jsLt (slotLandedOf sig lookupResult) sSent = false := by
  unfold iterTail at hm
  cases hp : mkPayload elapsed sig sSent (slotLandedOf sig lookupResult) cm with
  | error msg =>
      rw [hp] at hm
      split_ifs at hm <;> simp [postedOf] at hm
  | ok m2 =>
      rw [hp] at hm
      split_ifs at hm with h1 h2 h3 h4 <;> simp [postedOf] at hm
      all_goals subst hm
      all_goals exact ⟨rfl, by simpa using h2⟩

/-- C2: a landed position strictly below the sent position makes the
iteration log and continue without reporting, and any payload the
iteration hands to the reporter satisfies slot_sent less than or equal to
slot_landed. -/
theorem c2_no_negative_reports (sig : String) (sSent lookupResult : Option Nat)
    (elapsed : Nat) (cm : String) (skipVA : Bool) (vaStatus : Nat) :
    (∀ l s, sig ≠ FAKE_SIGNATURE → lookupResult = some l → sSent = some s → l < s →
      iterTail sig sSent lookupResult elapsed cm skipVA vaStatus =
        .voidContinue "ERROR: slot landed is less than slot sent. Not sending to VA.")
    ∧ (∀ m, postedOf (iterTail sig sSent lookupResult elapsed cm skipVA vaStatus) = some m →
        m.slot_sent ≤ m.slot_landed) := by
  constructor
  · intro l s hsig hlk hss hls
    subst hlk
    subst hss
    simp [iterTail, slotLandedOf, jsLt, hsig, hls]
  · intro m hm
    obtain ⟨hok, hlt⟩ := iterTail_posted sig sSent lookupResult elapsed cm skipVA vaStatus m hm
    obtain ⟨hs, hl, _⟩ := mkPayload_ok elapsed sig sSent (slotLandedOf sig lookupResult) cm m hok
    rw [hs, hl] at hlt
    simp only [jsLt, decide_eq_false_iff_not, Nat.not_lt] at hlt
    exact hlt

theorem c2_no_negative_reports_witness :
    iterTail "abc" (some 10) (some 5) 7 "confirmed" false 200 =
      .voidContinue "ERROR: slot landed is less than slot sent. Not sending to VA." :=
  (c2_no_negative_reports "abc" (some 10) (some 5) 7 "confirmed" false 200).1 5 10
    (by decide) rfl rfl (by decide)

theorem runOuter_failures (es : List String) :
    ∀ t : Nat, t < 3 →
      isOkE (runOuter t (es.map IterOutcome.failed)) = decide (t + es.length < 3) := by
  induction es with
  | nil =>
      intro t ht
      simp [runOuter, isOkE, ht]
  | cons e es ih =>
      intro t ht
      by_cases h3 : t + 1 = 3
      · have hrun : runOuter t ((e :: es).map IterOutcome.failed) = .error e := by
          simp [runOuter, outerStep, MAX_TRIES, h3]
        rw [hrun]
        simp only [isOkE, List.length_cons]
        symm
        rw [decide_eq_false_iff_not]
        omega
      · have hstep : outerStep t (IterOutcome.failed e) = .ok (t + 1) := by
          simp [outerStep, MAX_TRIES, h3]
        have hrun : runOuter t ((e :: es).map IterOutcome.failed) =
            runOuter (t + 1) (es.map IterOutcome.failed) := by
          simp [runOuter, hstep]
        rw [hrun, ih (t + 1) (by omega), decide_eq_decide]
        simp only [List.length_cons]
        omega

/-- C3: an exception reaching the outer catch pre-increments the counter
and rethrows exactly when the incremented counter equals 3; a reported
iteration resets the counter to 0; a void continue leaves it untouched;
and starting from a reset counter, a run of consecutive unexpected
failures terminates the process exactly when it is at least 3 long. -/
theorem c3_circuit_breaker (es : List String) (t : Nat) :
    (∀ e, outerStep t (.failed e) = if t + 1 = 3 then .error e else .ok (t + 1))
    ∧ outerStep t .success = .ok 0
    ∧ outerStep t .voided = .ok t
    ∧ isOkE (runOuter 0 (es.map IterOutcome.failed)) = decide (es.length < 3) := by
  refine ⟨fun e => rfl, rfl, rfl, ?_⟩
  simpa using runOuter_failures es 0 (by omega)

/-- C4: a blockhash-not-found error reaching the classify catch voids the
iteration - nothing is posted, the consecutive-failure counter is
unchanged and nothing is rethrown; a landing lookup that returns null
after the settle delay likewise continues without posting and without
touching the counter.  The next iteration starts clean by construction:
the only state carried across iterations is the counter returned here,
every other variable being re-declared per iteration
(ping-thing-client.ts:100-106). -/
theorem c4_void_iteration_isolation (t : Nat) (sSent lookupResult : Option Nat)
    (elapsed : Nat) (cm : String) (skipVA : Bool) (vaStatus : Nat) (sig : String) :
    runIteration t (.error .blockhashNotFound) sSent lookupResult elapsed cm skipVA vaStatus
      = .ok (t, none)
    ∧ (sig ≠ FAKE_SIGNATURE →
        iterTail sig sSent none elapsed cm skipVA vaStatus =
          .voidContinue "ERROR: tx is not found on RPC. Not sending to VA.")
    ∧ (sig ≠ FAKE_SIGNATURE →
        runIteration t (.ok sig) sSent none elapsed cm skipVA vaStatus = .ok (t, none)) := by
  refine ⟨rfl, ?_, ?_⟩
  · intro h
    simp [iterTail, h]
  · intro h
    have htail : iterTail sig sSent none elapsed cm skipVA vaStatus =
        .voidContinue "ERROR: tx is not found on RPC. Not sending to VA." := by
      simp [iterTail, h]
    simp [runIteration, htail]

theorem c4_void_iteration_isolation_witness :
    runIteration 1 (.ok "abc") (some 5) none 3 "confirmed" false 200 = .ok (1, none) :=
  (c4_void_iteration_isolation 1 (some 5) (some 7) 3 "confirmed" false 200 "abc").2.2
    (by decide)

/-- C7: evaluation of the resend loop at the failing input.  A
blockhash-not-found error raised by the send or the confirmation race is
caught by the inner catch (ping-thing-client.ts:222-227), which logs the
resend message, increments txSendAttempts and resends; and no exception
of any class ever escapes the resend loop, which stops only on
confirmation.  The spec expects an anchor-invalid error to abandon the
inner attempt and reach outcome classification, as the sibling variant
src/unnamed/part_008 does by rethrowing non-timeout errors. -/
theorem c7_resend_swallows_anchor_invalid (sig : String) :
    runInner { txSendAttempts := 1, signature := sig }
        [.sendError .blockhashNotFound] =
      .stillResending { txSendAttempts := 2, signature := sig }
    ∧ (∀ st l, isEscaped (runInner st l) = false) := by
  refine ⟨rfl, ?_⟩
  intro st l
  induction l generalizing st with
  | nil => rfl
  | cons r rs ih =>
      cases r with
      | confirmed => rfl
      | timeout => exact ih _
      | sendError e => exact ih _

/-- C8: the probe iteration reads the shared stores only at the capture
step - the build at ping-thing-client.ts:128-156 re-reads the globals in
the same synchronous segment as the capture, before the first await - so
two runs over store traces that agree at the capture step, however the
watchers write afterwards, build the same transaction and produce the
same tail result. -/
theorem c8_snapshot_isolation (t1 t2 : Nat → Stores) (tCap : Nat)
    (h : t1 tCap = t2 tCap) (fee : Nat) (signingOf : Tx → String)
    (lookupResult : Option Nat) (elapsed : Nat) (cm : String) (skipVA : Bool)
    (vaStatus : Nat) :
    iterationFromTrace t1 tCap fee signingOf lookupResult elapsed cm skipVA vaStatus =
      iterationFromTrace t2 tCap fee signingOf lookupResult elapsed cm skipVA vaStatus := by
  unfold iterationFromTrace
  rw [h]

theorem c8_snapshot_isolation_witness :
    iterationFromTrace (fun _ => { gBlockhash := initGBlockhash, gSlotSent := initGSlotSent })
        0 5 (fun _ => "sig") (some 3) 10 "confirmed" false 200 =
      iterationFromTrace
        (fun n => if n = 0 then { gBlockhash := initGBlockhash, gSlotSent := initGSlotSent }
          else { gBlockhash := { value := some "late", updated_at := 99, lastValidBlockHeight := 1 }
                 gSlotSent := { value := some 77, updated_at := 99 } })
        0 5 (fun _ => "sig") (some 3) 10 "confirmed" false 200 :=
  c8_snapshot_isolation
    (fun _ => { gBlockhash := initGBlockhash, gSlotSent := initGSlotSent })
    (fun n => if n = 0 then { gBlockhash := initGBlockhash, gSlotSent := initGSlotSent }
      else { gBlockhash := { value := some "late", updated_at := 99, lastValidBlockHeight := 1 }
             gSlotSent := { value := some 77, updated_at := 99 } })
    0 rfl 5 (fun _ => "sig") (some 3) 10 "confirmed" false 200

theorem innerSignature_runInner (l : List AttemptResult) :
    ∀ st : InnerState, innerSignature (runInner st l) = st.signature := by
  induction l with
  | nil => intro st; rfl
  | cons r rs ih =>
      intro st
      cases r with
      | confirmed => rfl
      | timeout => exact ih _
      | sendError e => exact ih _

/-- C9: the signature is fixed at signing time, before the resend loop;
however many times the 2000 ms retry timer fires, the resend loop leaves
it unchanged, and any payload the iteration hands to the reporter carries
exactly that signature. -/
theorem c9_idempotent_resend (sig : String) (a : Nat) (l : List AttemptResult)
    (sSent lookupResult : Option Nat) (elapsed : Nat) (cm : String) (skipVA : Bool)
    (vaStatus : Nat) :
    innerSignature (runInner { txSendAttempts := a, signature := sig } l) = sig
    ∧ (∀ m, postedOf (iterTail sig sSent lookupResult elapsed cm skipVA vaStatus) = some m →
        m.signature = sig) := by
  refine ⟨innerSignature_runInner l _, ?_⟩
  intro m hm
  obtain ⟨hok, _⟩ := iterTail_posted sig sSent lookupResult elapsed cm skipVA vaStatus m hm
  exact (mkPayload_ok elapsed sig sSent (slotLandedOf sig lookupResult) cm m hok).2.2

theorem c9_idempotent_resend_witness :
    ({ time := 10, signature := "sig1", transaction_type := "transfer", success := true,
       application := "web3", commitment_level := "confirmed", slot_sent := 3,
       slot_landed := 5 } : Measurement).signature = "sig1" :=
  (c9_idempotent_resend "sig1" 1 [.timeout, .confirmed] (some 3) (some 5) 10 "confirmed"
      false 200).2
    { time := 10, signature := "sig1", transaction_type := "transfer", success := true,
      application := "web3", commitment_level := "confirmed", slot_sent := 3,
      slot_landed := 5 }
    (by decide)

/-- C10: on the expiry path the sentinel signature is substituted, so the
landing lookup block is skipped and slotLanded stays undefined; the
sanity check compares undefined and is false, so it does not trigger; the
payload construction then throws converting the undefined slot_landed
(or a null slot_sent) to a BigInt before any POST is made, so nothing is
delivered to the reporter and the outer catch increments the 3-strike
counter, rethrowing exactly at 3. -/
theorem c10_expired_sentinel_path (sSent lookupResult : Option Nat) (elapsed : Nat)
    (cm : String) (skipVA : Bool) (vaStatus : Nat) (t : Nat) :
    slotLandedOf FAKE_SIGNATURE lookupResult = none
    ∧ jsLt (slotLandedOf FAKE_SIGNATURE lookupResult) sSent = false
    ∧ (∃ msg, iterTail FAKE_SIGNATURE sSent lookupResult elapsed cm skipVA vaStatus =
        .thrown none msg)
    ∧ postedOf (iterTail FAKE_SIGNATURE sSent lookupResult elapsed cm skipVA vaStatus) = none
    ∧ (∃ msg, runIteration t (.error .expiredBlockheight) sSent lookupResult elapsed cm
        skipVA vaStatus = if t + 1 = 3 then .error msg else .ok (t + 1, none)) := by
  have hsl : slotLandedOf FAKE_SIGNATURE lookupResult = none := by
    simp [slotLandedOf]
  have hjs : jsLt (slotLandedOf FAKE_SIGNATURE lookupResult) sSent = false := by
    rw [hsl]
    cases sSent <;> rfl
  have htail : ∃ msg, iterTail FAKE_SIGNATURE sSent lookupResult elapsed cm skipVA vaStatus =
      .thrown none msg := by
    cases sSent with
    | none =>
        exact ⟨"TypeError: cannot convert slot_sent to a BigInt", by
          simp [iterTail, hsl, jsLt, mkPayload]⟩
    | some s =>
        exact ⟨"TypeError: cannot convert slot_landed to a BigInt", by
          simp [iterTail, hsl, jsLt, mkPayload]⟩
  obtain ⟨msg, hmsg⟩ := htail
  refine ⟨hsl, hjs, ⟨msg, hmsg⟩, by rw [hmsg]; rfl, ⟨msg, ?_⟩⟩
  simp [runIteration, classifyCatch, hmsg, MAX_TRIES]

end PingThing
